import Mathlib

/-!
Verification development for the document-assembly core of the
AutoPDFBuilder repository: the field mapper, template filler, document
assembler and transient artifact cache, embedded shallowly from
`src/server/services/pdfProcessor.ts` and `src/server/objectStorage.ts`.

Strings are modelled with Lean `String` (the inputs are ASCII, so the
ASCII-only `toLower`/character classes coincide with the JavaScript
behaviour on the data considered).  A JavaScript object used as a
string-keyed record is modelled as an association list whose first
binding for a key wins; the in-memory `Map` of the artifact cache is
modelled extensionally as a function `String → Option CacheEntry`.
-/

/-- ASCII lower-case letter test (the JavaScript class `[a-z]`). -/
def charIsLower (c : Char) : Bool :=
  97 ≤ c.toNat && c.toNat ≤ 122

/-- ASCII upper-case letter test (the JavaScript class `[A-Z]`). -/
def charIsUpper (c : Char) : Bool :=
  65 ≤ c.toNat && c.toNat ≤ 90

/-- ASCII digit test (the JavaScript class `[0-9]`). -/
def charIsDigit (c : Char) : Bool :=
  48 ≤ c.toNat && c.toNat ≤ 57

/-- ASCII letter test (either case). -/
def charIsAlpha (c : Char) : Bool :=
  charIsUpper c || charIsLower c

/-- Whitespace test (the JavaScript class `\s`, restricted to the ASCII
whitespace characters that occur in the data considered). -/
def charIsWs (c : Char) : Bool :=
  c == ' ' || c == '\t' || c == '\n' || c == '\r'

/-- ASCII lower-casing of one character, as JavaScript `toLowerCase`
acts on the ASCII inputs considered. -/
def charToLower (c : Char) : Char :=
  if charIsUpper c then Char.ofNat (c.toNat + 32) else c

/-- ASCII upper-casing of one character. -/
def charToUpper (c : Char) : Char :=
  if charIsLower c then Char.ofNat (c.toNat - 32) else c

/-- JavaScript `toLowerCase` on our strings. -/
def strToLower (s : String) : String :=
  String.mk (s.data.map charToLower)

/-- Does the character list `hs` start with the list `needle`? -/
def listStartsWith : List Char → List Char → Bool
  | _, [] => true
  | [], _ :: _ => false
  | a :: as, b :: bs => a == b && listStartsWith as bs

/-- Does the character list contain `needle` as a contiguous substring? -/
def listContainsSub : List Char → List Char → Bool
  | [], needle => needle.isEmpty
  | h :: t, needle => listStartsWith (h :: t) needle || listContainsSub t needle

/-- JavaScript `String.prototype.includes` on our strings. -/
def strContains (s sub : String) : Bool :=
  listContainsSub s.data sub.data

/-- Collapse every maximal run of whitespace characters to one space,
mirroring the JavaScript `replace` of a whitespace-run pattern with a
single space. -/
def collapseWs : List Char → List Char
  | [] => []
  | [c] => if charIsWs c then [' '] else [c]
  | c1 :: c2 :: rest =>
    if charIsWs c1 && charIsWs c2 then collapseWs (c2 :: rest)
    else (if charIsWs c1 then ' ' else c1) :: collapseWs (c2 :: rest)

/-- Word characters in the sense of the JavaScript `\w` class. -/
def isWordChar (c : Char) : Bool :=
  charIsAlpha c || charIsDigit c || c == '_'

/-- Uppercase every word character that starts a word (JavaScript
`replace` of word-boundary-then-word-char with its uppercase); the
Boolean argument records whether the previous character was a word
character. -/
def upFirstWords : List Char → Bool → List Char
  | [], _ => []
  | c :: rest, prevWord =>
    (if isWordChar c && !prevWord then charToUpper c else c) :: upFirstWords rest (isWordChar c)

/-! ## Data records

`ExtractedData` objects (`Partial<ExtractedData>`) are string-keyed
records of string values; absent keys and keys bound to the empty string
are both JavaScript-falsy. -/

/-- A string-keyed record of extracted values. -/
abbrev DataRecord := List (String × String)

/-- Raw lookup of a key (first binding wins, like a JavaScript object). -/
def getVal (d : DataRecord) (k : String) : Option String :=
  d.lookup k

/-- Lookup through JavaScript truthiness: a key bound to the empty
string behaves exactly like an absent key. -/
def truthyGet (d : DataRecord) (k : String) : Option String :=
  match getVal d k with
  | some v => if v == "" then none else some v
  | none => none

/-- Object-spread update `\x7b...d, k: v\x7d`: bind `k` to `v`,
overriding any previous binding. -/
def setKey (d : DataRecord) (k v : String) : DataRecord :=
  (k, v) :: d.filter (fun p => p.1 != k)

/-- Remove every binding of key `k`. -/
def removeKey (d : DataRecord) (k : String) : DataRecord :=
  d.filter (fun p => p.1 != k)

/-- `fillPDFTemplate` first spreads the extracted data and then binds the
three synonymous current-date keys to the formatted date
(`pdfProcessor.ts` lines 279-287). -/
def enhance (d : DataRecord) (today : String) : DataRecord :=
  setKey (setKey (setKey d "currentDate" today) "todaysDate" today) "date" today

/-! ## Field mapper (`PDFProcessor.mapFieldNameToDataKey`) -/

/-- Normalization of a raw form-field name: lower-case, then strip every
character outside `[a-z0-9]` (`pdfProcessor.ts` line 394). -/
def normalizeFieldName (s : String) : String :=
  String.mk (((strToLower s).data).filter (fun c => charIsLower c || charIsDigit c))

/-- The alias table of `mapFieldNameToDataKey`, verbatim from
`pdfProcessor.ts` lines 397-434, including the `licenseNumber` entry
whose mixed-case key can never be produced by the normalizer. -/
def fieldNameMappings : List (String × String) :=
  [("firstname", "firstName"),
   ("lastname", "lastName"),
   ("customerfirstname", "firstName"),
   ("customerlastname", "lastName"),
   ("buyerfirstname", "firstName"),
   ("buyerlastname", "lastName"),
   ("address", "address"),
   ("customeraddress", "address"),
   ("buyeraddress", "address"),
   ("licenseNumber", "licenseNumber"),
   ("drivinglicensenumber", "licenseNumber"),
   ("dllicense", "licenseNumber"),
   ("licenseexpiration", "licenseExpiration"),
   ("licenseexp", "licenseExpiration"),
   ("insurancecompany", "insuranceCompany"),
   ("insurance", "insuranceCompany"),
   ("insurer", "insuranceCompany"),
   ("vin", "newCarVin"),
   ("vehiclevin", "newCarVin"),
   ("newcarvin", "newCarVin"),
   ("vehicleidentificationnumber", "newCarVin"),
   ("odometer", "newCarOdometer"),
   ("mileage", "newCarOdometer"),
   ("newcarodometer", "newCarOdometer"),
   ("vehiclemileage", "newCarOdometer"),
   ("tradeinvin", "tradeInVin"),
   ("tradevin", "tradeInVin"),
   ("tradeinodometer", "tradeInOdometer"),
   ("tradeodometer", "tradeInOdometer"),
   ("tradeinmileage", "tradeInOdometer"),
   ("tradeinyear", "tradeInYear"),
   ("tradeyear", "tradeInYear"),
   ("tradeinmake", "tradeInMake"),
   ("trademake", "tradeInMake"),
   ("tradeinmodel", "tradeInModel"),
   ("trademodel", "tradeInModel")]

/-- `mapFieldNameToDataKey` (`pdfProcessor.ts` lines 393-437); the
`template` parameter of the source is unused by the function body. -/
def mapFieldNameToDataKey (fieldName : String) : Option String :=
  fieldNameMappings.lookup (normalizeFieldName fieldName)

example : mapFieldNameToDataKey "Customer First Name" = some "firstName" := by decide
example : mapFieldNameToDataKey "DLLicense" = some "licenseNumber" := by decide
example : mapFieldNameToDataKey "RandomUnmappedField" = none := by decide

/-! ## Template titles, field-mapping tables and filenames -/

/-- Known template display titles (`pdfProcessor.ts` lines 600-609). -/
def templateTitles : List (String × String) :=
  [("deal-check", "Deal Check List"),
   ("delivery-receipt", "Delivery Receipt"),
   ("we-owe", "We Owe Form"),
   ("trade-agreement", "Trade Agreement"),
   ("bill-of-sale", "Bill of Sale"),
   ("odometer-disclosure", "Odometer Disclosure Statement")]

/-- Default title for an unknown template identifier: replace every
character outside letters, digits and whitespace by a space, collapse
whitespace runs, and trim (`pdfProcessor.ts` line 609). -/
def defaultTemplateTitle (template : String) : String :=
  String.trim (String.mk (collapseWs ((template.data).map
    (fun c => if charIsAlpha c || charIsDigit c || charIsWs c then c else ' '))))

/-- `getTemplateTitle` (`pdfProcessor.ts` lines 600-610). -/
def getTemplateTitle (template : String) : String :=
  match templateTitles.lookup template with
  | some t => t
  | none => defaultTemplateTitle template

/-- The base fallback field-mapping table (`pdfProcessor.ts` 615-622). -/
def baseMappings : List (String × String) :=
  [("Customer First Name", "firstName"),
   ("Customer Last Name", "lastName"),
   ("Customer Address", "address"),
   ("Driver License Number", "licenseNumber"),
   ("License Expiration", "licenseExpiration"),
   ("Insurance Company", "insuranceCompany")]

/-- The vehicle fallback field-mapping table (`pdfProcessor.ts` 624-627). -/
def vehicleMappings : List (String × String) :=
  [("New Vehicle VIN", "newCarVin"),
   ("New Vehicle Odometer", "newCarOdometer")]

/-- The trade-in fallback field-mapping table (`pdfProcessor.ts` 629-635). -/
def tradeInMappings : List (String × String) :=
  [("Trade-in VIN", "tradeInVin"),
   ("Trade-in Odometer", "tradeInOdometer"),
   ("Trade-in Year", "tradeInYear"),
   ("Trade-in Make", "tradeInMake"),
   ("Trade-in Model", "tradeInModel")]

/-- `getFieldMappings` (`pdfProcessor.ts` lines 612-651); object spreads
of disjointly-keyed tables are concatenations in insertion order. -/
def getFieldMappings (template : String) : List (String × String) :=
  if template == "trade-agreement" then baseMappings ++ vehicleMappings ++ tradeInMappings
  else if template == "we-owe" then baseMappings
  else if template == "deal-check" || template == "delivery-receipt"
      || template == "bill-of-sale" || template == "odometer-disclosure" then
    baseMappings ++ vehicleMappings
  else baseMappings

/-- Replace every whitespace run by one underscore (JavaScript
`replace` of a whitespace-run pattern with an underscore). -/
def wsRunsToUnderscore (s : String) : String :=
  String.mk ((collapseWs s.data).map (fun c => if c == ' ' then '_' else c))

/-- Replace every character outside letters and digits by an
underscore (JavaScript `replace` of the complement class, per char). -/
def nonAlnumToUnderscore (s : String) : String :=
  String.mk (s.data.map (fun c => if charIsAlpha c || charIsDigit c then c else '_'))

/-- `generateFileName` (`pdfProcessor.ts` lines 653-662); `dateStr` is
the `YYYYMMDD` rendering of the current date computed there. -/
def generateFileName (template : String) (extractedData : DataRecord) (dateStr : String) : String :=
  let customerName :=
    match truthyGet extractedData "firstName", truthyGet extractedData "lastName" with
    | some f, some l => "_" ++ f ++ "_" ++ l
    | _, _ => ""
  let templateTitle := getTemplateTitle template
  let templateName :=
    if templateTitle != "" then wsRunsToUnderscore templateTitle
    else nonAlnumToUnderscore template
  templateName ++ customerName ++ "_" ++ dateStr ++ ".pdf"

/-- `generateCombinedFileName` (`pdfProcessor.ts` lines 589-598);
`dateStr` is the `YYYY-MM-DD` rendering of the current date. -/
def generateCombinedFileName (extractedData : DataRecord) (dateStr : String) : String :=
  let parts := ([truthyGet extractedData "firstName",
                 truthyGet extractedData "lastName"]).filterMap id
  let joined := String.intercalate "_" parts
  let customerName := if joined == "" then "Customer" else joined
  "Deal_Package_" ++ customerName ++ "_" ++ dateStr ++ ".pdf"

/-! ## Template repository (`ObjectStorageService`, template side)

`downloadPDFTemplate` (`objectStorage.ts` lines 552-566) calls
`searchPDFTemplate`; an exception thrown during the search (environment
or existence-check I/O) propagates to the caller, a missing template
yields `null`, and an exception thrown by the download itself is caught
and also turned into `null`.  The per-call behaviour of the repository
collaborator is abstracted as one outcome value. -/

/-- A form field of a loaded template, by widget kind: `pdf-lib`
text fields, check boxes and radio groups are handled by the filler;
`other` stands for any further widget kind, which falls through every
branch of the fill dispatch (`pdfProcessor.ts` lines 314-334). -/
inductive FormField
  | textField (name : String)
  | checkBox (name : String)
  | radioGroup (name : String) (options : List String)
  | other (name : String)
deriving DecidableEq, Repr

/-- The name reported by `field.getName()`. -/
def FormField.name : FormField → String
  | .textField n => n
  | .checkBox n => n
  | .radioGroup n _ => n
  | .other n => n

/-- Bytes held by the repository for a template: either a loadable
form-bearing document (its form fields and page count), or bytes that
`PDFDocument.load` rejects. -/
inductive TemplateBytes
  | valid (fields : List FormField) (pages : Nat)
  | corrupt
deriving DecidableEq, Repr

/-- Behaviour of the template repository on one request. -/
inductive RepoOutcome
  | found (bytes : TemplateBytes)
  | notFound
  | downloadError
  | searchError
deriving DecidableEq, Repr

/-- `downloadPDFTemplate`: search errors propagate (`Except.error`), a
missing template gives `none`, and a download error is caught and gives
`none` as well (`objectStorage.ts` lines 559-565). -/
def downloadPDFTemplate : RepoOutcome → Except String (Option TemplateBytes)
  | .found b => .ok (some b)
  | .notFound => .ok none
  | .downloadError => .ok none
  | .searchError => .error "search failed"

/-! ## Template filler (`PDFProcessor.fillPDFTemplate`) -/

/-- The checkbox truthiness list (`pdfProcessor.ts` line 319). -/
def truthyValues : List String :=
  ["true", "yes", "1", "checked", "x"]

/-- Outcome of the fill dispatch on one form field. -/
inductive FieldOutcome
  | untouched
  | setText (v : String)
  | checked
  | unchecked
  | selected (v : String)
deriving DecidableEq, Repr

/-- Fill dispatch for one form field against the (already enhanced)
data record (`pdfProcessor.ts` lines 306-338): the field is written only
when its name maps to a data key whose value is truthy; text fields get
the value, check boxes are checked exactly when the lower-cased value is
in `truthyValues` (and count as processed either way), radio groups are
selected (and counted) only when the value is among their options.  The
second component records whether `fieldsProcessed` was incremented. -/
def fillField (d : DataRecord) (f : FormField) : FieldOutcome × Bool :=
  match mapFieldNameToDataKey f.name with
  | none => (.untouched, false)
  | some key =>
    match truthyGet d key with
    | none => (.untouched, false)
    | some v =>
      match f with
      | .textField _ => (.setText v, true)
      | .checkBox _ =>
        (if truthyValues.contains (strToLower v) then .checked else .unchecked, true)
      | .radioGroup _ opts =>
        if opts.contains v then (.selected v, true) else (.untouched, false)
      | .other _ => (.untouched, false)

/-- Spec-side predicate: the field has a mapped canonical key, whose
value is present (truthy), of a kind the fill dispatch can set (text and
boolean fields always; a single-choice group only when the value is one
of its declared options; any other widget kind never). -/
def fieldFillable (d : DataRecord) (f : FormField) : Bool :=
  match mapFieldNameToDataKey f.name with
  | none => false
  | some key =>
    match truthyGet d key with
    | none => false
    | some v =>
      match f with
      | .textField _ => true
      | .checkBox _ => true
      | .radioGroup _ opts => opts.contains v
      | .other _ => false

/-- `confidenceScores[dataKey] || 'low'` (`pdfProcessor.ts` line 360). -/
def confGet (conf : List (String × String)) (key : String) : String :=
  match conf.lookup key with
  | some c => if c == "" then "low" else c
  | none => "low"

/-- One drawn line of the synthetic fallback page (`pdfProcessor.ts`
lines 358-375). -/
def fallbackLine (d : DataRecord) (conf : List (String × String))
    (label : String) (key : String) : String :=
  match truthyGet d key with
  | some v => label ++ ": " ++ v ++ " (" ++ confGet conf key ++ " confidence)"
  | none => label ++ ": [NOT PROVIDED]"

/-- Content of the produced document: either the real template with the
final state of each form field and the template page count, or the
synthetic single-page fallback rendering (title line and field lines). -/
inductive DocContent
  | real (states : List (FormField × FieldOutcome)) (pages : Nat)
  | fallback (title : String) (lines : List String)
deriving DecidableEq, Repr

/-- Page count of the produced document (the fallback document has
exactly one page, added by `pdfDoc.addPage` at line 345). -/
def docPages : DocContent → Nat
  | .real _ p => p
  | .fallback _ _ => 1

/-- `PDFProcessingResult` (`pdfProcessor.ts` lines 257-262), with the
byte payload replaced by its observable content. -/
structure PDFProcessingResult where
  fileName : String
  content : DocContent
  fieldsProcessed : Nat
  fieldsTotal : Nat
deriving DecidableEq, Repr

/-- `fillPDFTemplate` (`pdfProcessor.ts` lines 273-390).  `today` is the
`MM/DD/YY` current date injected under the three date keys and `dateStr`
the `YYYYMMDD` date used in the filename.  A search-phase repository
error or a template whose bytes fail to load propagates as an error;
absent bytes (not-found, or a caught download error) select the
synthetic fallback mode. -/
def fillPDFTemplate (repo : RepoOutcome) (template : String)
    (extractedData : DataRecord) (confidenceScores : List (String × String))
    (today dateStr : String) : Except String PDFProcessingResult :=
  match downloadPDFTemplate repo with
  | .error e => .error e
  | .ok (some .corrupt) => .error "failed to load PDF template"
  | .ok (some (.valid fields pages)) =>
    .ok { fileName := generateFileName template extractedData dateStr,
          content := .real (fields.map
            (fun f => (f, (fillField (enhance extractedData today) f).1))) pages,
          fieldsProcessed := fields.countP
            (fun f => (fillField (enhance extractedData today) f).2),
          fieldsTotal := fields.length }
  | .ok none =>
    .ok { fileName := generateFileName template extractedData dateStr,
          content := .fallback (getTemplateTitle template)
            ((getFieldMappings template).map
              (fun p => fallbackLine (enhance extractedData today) confidenceScores p.1 p.2)),
          fieldsProcessed := (getFieldMappings template).countP
            (fun p => (truthyGet (enhance extractedData today) p.2).isSome),
          fieldsTotal := (getFieldMappings template).length }

/-! ## Image pages (`PDFProcessor.addImagesToPDF`) -/

/-- One uploaded image: its document-type label, its declared media
type, and whether its bytes are accepted by the matching `pdf-lib`
embedder (`embedJpg`/`embedPng` throw on bytes they cannot decode, and
the surrounding `catch` then skips the image). -/
structure UploadedImage where
  documentType : String
  mimeType : String
  decodable : Bool
deriving DecidableEq, Repr

/-- A declared media type is supported when its lower-casing contains
`jpeg`, `jpg` or `png` (`pdfProcessor.ts` lines 457-464). -/
def supportedMime (m : String) : Bool :=
  strContains (strToLower m) "jpeg" || strContains (strToLower m) "jpg"
    || strContains (strToLower m) "png"

/-- Display titles for the known document types
(`pdfProcessor.ts` lines 524-535). -/
def documentTypeTitles : List (String × String) :=
  [("drivers-license", "Driver\x27s License"),
   ("insurance-card", "Insurance Card"),
   ("new-car-vin", "New Car VIN"),
   ("new-car-odometer", "New Car Odometer"),
   ("trade-in-vin", "Trade-in VIN"),
   ("trade-in-odometer", "Trade-in Odometer"),
   ("spot-registration", "Spot Registration")]

/-- `formatDocumentTypeTitle` (`pdfProcessor.ts` lines 524-535):
table lookup, else hyphens to spaces and title-casing of each word. -/
def formatDocumentTypeTitle (documentType : String) : String :=
  match documentTypeTitles.lookup documentType with
  | some t => t
  | none =>
    String.mk (upFirstWords ((documentType.data).map
      (fun c => if c == '-' then ' ' else c)) false)

/-- The manifest label recorded for an image whose media type is
unsupported (`pdfProcessor.ts` line 467): hyphens of the document type
become spaces, annotated with the lower-cased media type. -/
def unsupportedLabel (img : UploadedImage) : String :=
  String.mk ((img.documentType.data).map (fun c => if c == '-' then ' ' else c))
    ++ " (unsupported format: " ++ strToLower img.mimeType ++ ")"

/-- `addImagesToPDF` (`pdfProcessor.ts` lines 448-521), observed through
the number of pages added and the returned `addedImages` manifest: a
supported image that decodes adds one page and records its display
title; a supported image whose embedder throws is skipped silently by
the `catch`; an unsupported image adds no page but records its annotated
label. -/
def addImagesToPDF : List UploadedImage → Nat × List String
  | [] => (0, [])
  | img :: rest =>
    let r := addImagesToPDF rest
    if supportedMime img.mimeType then
      if img.decodable then (1 + r.1, formatDocumentTypeTitle img.documentType :: r.2)
      else r
    else (r.1, unsupportedLabel img :: r.2)

/-! ## Document assembler (`PDFProcessor.createCombinedPDF`) -/

/-- Per-template loop of `createCombinedPDF` (`pdfProcessor.ts` lines
557-572): a successful fill contributes every page of the produced
document and its display title in the manifest; a failed fill is caught,
logged and skipped. -/
def processTemplates (repo : String → RepoOutcome) (ts : List String)
    (d : DataRecord) (conf : List (String × String)) (today dateStr : String) :
    Nat × List String :=
  match ts with
  | [] => (0, [])
  | t :: rest =>
    let r := processTemplates repo rest d conf today dateStr
    match fillPDFTemplate (repo t) t d conf today dateStr with
    | .ok res => (docPages res.content + r.1, getTemplateTitle t :: r.2)
    | .error _ => r

/-- `CombinedPDFResult` (`pdfProcessor.ts` lines 264-269), with the byte
payload replaced by its page count. -/
structure CombinedPDFResult where
  fileName : String
  pages : Nat
  documentsIncluded : List String
  imagesIncluded : List String
deriving DecidableEq, Repr

/-- `createCombinedPDF` (`pdfProcessor.ts` lines 538-586): fills each
selected template over the date-enhanced data (failures are caught and
skipped), appends the image pages, and returns the combined result;
every failure path inside the loop bodies is absorbed, so the function
itself never throws.  `dateStr2` is the `YYYY-MM-DD` date of the
combined filename. -/
def createCombinedPDF (repo : String → RepoOutcome) (selectedTemplates : List String)
    (extractedData : DataRecord) (conf : List (String × String))
    (uploadedFiles : List UploadedImage) (today dateStr dateStr2 : String) :
    Except String CombinedPDFResult :=
  let tp := processTemplates repo selectedTemplates (enhance extractedData today) conf today dateStr
  let ip := addImagesToPDF uploadedFiles
  .ok { fileName := generateCombinedFileName extractedData dateStr2,
        pages := tp.1 + ip.1,
        documentsIncluded := tp.2,
        imagesIncluded := ip.2 }

/-! ## Artifact cache (`ObjectStorageService` temp-PDF storage)

The `Map` keyed by download key is modelled extensionally as a function
from keys to optional entries; the generated key (`Date.now` plus a
random suffix, `objectStorage.ts` line 61) is an input of `put`. -/

/-- One stored artifact (`objectStorage.ts` line 37). -/
structure CacheEntry where
  buffer : List Nat
  contentType : String
  fileName : String
  createdAt : Nat
deriving DecidableEq, Repr

/-- The cache state: the in-memory map of entries. -/
def CacheState := String → Option CacheEntry

/-- The fixed TTL of one hour, in milliseconds (`objectStorage.ts`
line 43). -/
def ttlMs : Nat := 60 * 60 * 1000

/-- `cleanupTempStorage` (`objectStorage.ts` lines 42-55): delete every
entry created strictly before `now` minus the TTL. -/
def cleanupTempStorage (now : Nat) (s : CacheState) : CacheState :=
  fun key =>
    match s key with
    | some e => if e.createdAt < now - ttlMs then none else some e
    | none => none

/-- `storeTempPDF` (`objectStorage.ts` lines 58-70): sweep first, then
store the entry under the freshly generated key with creation time `now`
and content type `application/pdf`, returning the key. -/
def storeTempPDF (now : Nat) (newKey fileName : String) (buffer : List Nat)
    (s : CacheState) : String × CacheState :=
  let s1 := cleanupTempStorage now s
  (newKey, fun key =>
    if key == newKey then
      some { buffer := buffer, contentType := "application/pdf",
             fileName := fileName, createdAt := now }
    else s1 key)

/-- `getTempPDF` (`objectStorage.ts` lines 73-84): a pure lookup that
returns the payload with its content type and filename, or `null`. -/
def getTempPDF (s : CacheState) (k : String) : Option (List Nat × String × String) :=
  match s k with
  | some e => some (e.buffer, e.contentType, e.fileName)
  | none => none

/-- An operation against the shared cache: an insertion (with its wall
clock time and generated key) or a retrieval. -/
inductive CacheOp
  | put (now : Nat) (key fileName : String) (buffer : List Nat)
  | get (key : String)

/-- State transition of one cache operation; `getTempPDF` only reads the
map, so a `get` leaves the state unchanged. -/
def stepCache (s : CacheState) : CacheOp → CacheState
  | .put now key fn buf => (storeTempPDF now key fn buf s).2
  | .get _ => s

/-- Run a sequence of cache operations. -/
def runCache (s : CacheState) (ops : List CacheOp) : CacheState :=
  ops.foldl stepCache s

/-- The empty cache. -/
def emptyCache : CacheState := fun _ => none

/-- An operation neither reuses the key `k` nor happens after `t0`
plus the TTL (for the retention theorem). -/
def opFreshWithin (t0 : Nat) (k : String) : CacheOp → Bool
  | .put now key _ _ => decide (now ≤ t0 + ttlMs) && key != k
  | .get _ => true

/-- An operation does not reuse the key `k` (for the eviction
theorem). -/
def opAvoidsKey (k : String) : CacheOp → Bool
  | .put _ key _ _ => key != k
  | .get _ => true

/-! ## Observation helpers -/

/-- Did the computation return a result (no exception)? -/
def exOk {α : Type} (x : Except String α) : Bool :=
  match x with
  | .ok _ => true
  | .error _ => false

/-- The returned value of a computation, or `none` on an exception. -/
def exOut {α : Type} (x : Except String α) : Option α :=
  match x with
  | .ok a => some a
  | .error _ => none

/-- `fieldsProcessed` of a fill outcome (`0` when the fill failed). -/
def fieldsProcessedOf (x : Except String PDFProcessingResult) : Nat :=
  match x with
  | .ok r => r.fieldsProcessed
  | .error _ => 0

/-- `fieldsTotal` of a fill outcome (`0` when the fill failed). -/
def fieldsTotalOf (x : Except String PDFProcessingResult) : Nat :=
  match x with
  | .ok r => r.fieldsTotal
  | .error _ => 0

/-- Did the fill return a synthetic fallback document? -/
def resultIsFallback (x : Except String PDFProcessingResult) : Bool :=
  match x with
  | .ok r =>
    match r.content with
    | .fallback _ _ => true
    | .real _ _ => false
  | .error _ => false

/-- The final form-field states of a real-template fill outcome. -/
def realStatesOf (x : Except String PDFProcessingResult) : List (FormField × FieldOutcome) :=
  match x with
  | .ok r =>
    match r.content with
    | .real states _ => states
    | .fallback _ _ => []
  | .error _ => []

/-- Pages contributed to the combined artifact by one template fill:
every page of the produced document on success, none on failure. -/
def fillPages (x : Except String PDFProcessingResult) : Nat :=
  match x with
  | .ok r => docPages r.content
  | .error _ => 0

/-- Page count of an assembly outcome (`0` when it failed). -/
def combinedPages (x : Except String CombinedPDFResult) : Nat :=
  match x with
  | .ok r => r.pages
  | .error _ => 0

/-- Documents-included manifest of an assembly outcome. -/
def documentsIncludedOf (x : Except String CombinedPDFResult) : List String :=
  match x with
  | .ok r => r.documentsIncluded
  | .error _ => []

/-- Images-included manifest of an assembly outcome. -/
def imagesIncludedOf (x : Except String CombinedPDFResult) : List String :=
  match x with
  | .ok r => r.imagesIncluded
  | .error _ => []

example :
    resultIsFallback (fillPDFTemplate .notFound "we-owe"
      [("insuranceCompany", "XYZ Mutual")] [("insuranceCompany", "high")]
      "01/01/25" "20250101") = true := by decide

example :
    exOut (fillPDFTemplate RepoOutcome.notFound "we-owe"
        [("insuranceCompany", "XYZ Mutual")] [("insuranceCompany", "high")]
        "01/01/25" "20250101") =
      some
        { fileName := "We_Owe_Form_20250101.pdf",
          content := .fallback "We Owe Form"
            ["Customer First Name: [NOT PROVIDED]",
             "Customer Last Name: [NOT PROVIDED]",
             "Customer Address: [NOT PROVIDED]",
             "Driver License Number: [NOT PROVIDED]",
             "License Expiration: [NOT PROVIDED]",
             "Insurance Company: XYZ Mutual (high confidence)"],
          fieldsProcessed := 1,
          fieldsTotal := 6 } := by decide

/-! ## Lookup lemmas for data records -/

lemma lookup_filter_keep (q : String × String → Bool) (k' : String)
    (hq : ∀ v, q (k', v) = true) :
    ∀ d : DataRecord, (d.filter q).lookup k' = d.lookup k' := by
  intro d
  induction d with
  | nil => rfl
  | cons p rest ih =>
    obtain ⟨pk, pv⟩ := p
    cases hq2 : q (pk, pv) with
    | true =>
      cases hkp : (k' == pk) with
      | true => simp [List.filter_cons, hq2, List.lookup, hkp]
      | false => simp [List.filter_cons, hq2, List.lookup, hkp, ih]
    | false =>
      have hkp : (k' == pk) = false := by
        cases hkp : (k' == pk) with
        | true =>
          have he : k' = pk := eq_of_beq hkp
          rw [← he] at hq2
          rw [hq pv] at hq2
          exact absurd hq2 (by simp)
        | false => rfl
      simp [List.filter_cons, hq2, List.lookup, hkp, ih]

lemma lookup_filter_drop (q : String × String → Bool) (k' : String)
    (hq : ∀ v, q (k', v) = false) :
    ∀ d : DataRecord, (d.filter q).lookup k' = none := by
  intro d
  induction d with
  | nil => rfl
  | cons p rest ih =>
    obtain ⟨pk, pv⟩ := p
    cases hq2 : q (pk, pv) with
    | true =>
      have hkp : (k' == pk) = false := by
        cases hkp : (k' == pk) with
        | true =>
          have he : k' = pk := eq_of_beq hkp
          rw [← he] at hq2
          rw [hq pv] at hq2
          exact absurd hq2 (by simp)
        | false => rfl
      simp [List.filter_cons, hq2, List.lookup, hkp, ih]
    | false =>
      simp [List.filter_cons, hq2, List.lookup, ih]

lemma getVal_setKey (d : DataRecord) (k v k' : String) :
    getVal (setKey d k v) k' = if k' = k then some v else getVal d k' := by
  by_cases h : k' = k
  · subst h
    simp [getVal, setKey, List.lookup]
  · have hb : (k' == k) = false := by simp [h]
    simp only [getVal, setKey, List.lookup, hb, if_neg h]
    exact lookup_filter_keep _ _ (fun v2 => by simp [bne, hb]) d

lemma getVal_removeKey (d : DataRecord) (k k' : String) :
    getVal (removeKey d k) k' = if k' = k then none else getVal d k' := by
  by_cases h : k' = k
  · subst h
    simp only [getVal, removeKey, if_pos rfl]
    exact lookup_filter_drop _ _ (fun v2 => by simp) d
  · have hb : (k' == k) = false := by simp [h]
    simp only [getVal, removeKey, if_neg h]
    exact lookup_filter_keep _ _ (fun v2 => by simp [bne, hb]) d

lemma truthyGet_setKey (d : DataRecord) (k v k' : String) :
    truthyGet (setKey d k v) k'
      = if k' = k then (if v == "" then none else some v) else truthyGet d k' := by
  by_cases h : k' = k <;> simp [truthyGet, getVal_setKey, h]

lemma truthyGet_removeKey (d : DataRecord) (k k' : String) :
    truthyGet (removeKey d k) k' = if k' = k then none else truthyGet d k' := by
  by_cases h : k' = k <;> simp [truthyGet, getVal_removeKey, h]

lemma truthyGet_set_empty (d : DataRecord) (k k' : String) :
    truthyGet (setKey d k "") k' = truthyGet (removeKey d k) k' := by
  by_cases h : k' = k <;> simp [truthyGet_setKey, truthyGet_removeKey, h]

lemma truthyGet_enhance_congr {d1 d2 : DataRecord} (t : String)
    (h : ∀ k', truthyGet d1 k' = truthyGet d2 k') :
    ∀ k', truthyGet (enhance d1 t) k' = truthyGet (enhance d2 t) k' := by
  intro k'
  simp [enhance, truthyGet_setKey, h]

/-! ## Congruence of the filler in the data record -/

lemma fillField_congr {d1 d2 : DataRecord}
    (h : ∀ k, truthyGet d1 k = truthyGet d2 k) (f : FormField) :
    fillField d1 f = fillField d2 f := by
  unfold fillField
  simp only [h]

lemma fallbackLine_congr {d1 d2 : DataRecord}
    (h : ∀ k, truthyGet d1 k = truthyGet d2 k)
    (conf : List (String × String)) (label key : String) :
    fallbackLine d1 conf label key = fallbackLine d2 conf label key := by
  unfold fallbackLine
  rw [h key]

lemma generateFileName_congr {d1 d2 : DataRecord}
    (h : ∀ k, truthyGet d1 k = truthyGet d2 k) (template dateStr : String) :
    generateFileName template d1 dateStr = generateFileName template d2 dateStr := by
  unfold generateFileName
  rw [h "firstName", h "lastName"]

lemma fillPDFTemplate_congr {d1 d2 : DataRecord}
    (h : ∀ k, truthyGet d1 k = truthyGet d2 k)
    (repo : RepoOutcome) (template : String) (conf : List (String × String))
    (today dateStr : String) :
    fillPDFTemplate repo template d1 conf today dateStr
      = fillPDFTemplate repo template d2 conf today dateStr := by
  have he := truthyGet_enhance_congr today h
  have hff : ∀ f, fillField (enhance d1 today) f = fillField (enhance d2 today) f :=
    fillField_congr he
  have hfl : ∀ label key, fallbackLine (enhance d1 today) conf label key
      = fallbackLine (enhance d2 today) conf label key :=
    fun label key => fallbackLine_congr he conf label key
  have hgf := generateFileName_congr h template dateStr
  unfold fillPDFTemplate
  cases repo with
  | found b =>
    cases b with
    | valid fields pages => simp [downloadPDFTemplate, hff, hgf]
    | corrupt => rfl
  | notFound => simp [downloadPDFTemplate, hfl, hgf, he]
  | downloadError => simp [downloadPDFTemplate, hfl, hgf, he]
  | searchError => rfl

/-! ## Assembler decomposition lemmas -/

lemma processTemplates_pages (repo : String → RepoOutcome) (ts : List String)
    (d : DataRecord) (conf : List (String × String)) (today dateStr : String) :
    (processTemplates repo ts d conf today dateStr).1
      = (ts.map (fun t => fillPages (fillPDFTemplate (repo t) t d conf today dateStr))).sum := by
  induction ts with
  | nil => rfl
  | cons t rest ih =>
    unfold processTemplates
    cases hf : fillPDFTemplate (repo t) t d conf today dateStr with
    | ok res => simp [hf, ih, fillPages]
    | error e => simp [hf, ih, fillPages]

lemma processTemplates_docs (repo : String → RepoOutcome) (ts : List String)
    (d : DataRecord) (conf : List (String × String)) (today dateStr : String) :
    (processTemplates repo ts d conf today dateStr).2
      = (ts.filter
          (fun t => exOk (fillPDFTemplate (repo t) t d conf today dateStr))).map getTemplateTitle := by
  induction ts with
  | nil => rfl
  | cons t rest ih =>
    unfold processTemplates
    cases hf : fillPDFTemplate (repo t) t d conf today dateStr with
    | ok res => simp [hf, ih, exOk, List.filter_cons]
    | error e => simp [hf, ih, exOk, List.filter_cons]

lemma addImagesToPDF_pages (imgs : List UploadedImage) :
    (addImagesToPDF imgs).1
      = imgs.countP (fun i => supportedMime i.mimeType && i.decodable) := by
  induction imgs with
  | nil => rfl
  | cons img rest ih =>
    unfold addImagesToPDF
    cases hs : supportedMime img.mimeType with
    | true =>
      cases hd : img.decodable with
      | true => simp [List.countP_cons, hs, hd, ih, Nat.add_comm]
      | false => simp [List.countP_cons, hs, hd, ih]
    | false => simp [List.countP_cons, hs, ih]

lemma addImagesToPDF_labels (imgs : List UploadedImage) :
    (addImagesToPDF imgs).2
      = imgs.filterMap (fun i =>
          if supportedMime i.mimeType then
            (if i.decodable then some (formatDocumentTypeTitle i.documentType) else none)
          else some (unsupportedLabel i)) := by
  induction imgs with
  | nil => rfl
  | cons img rest ih =>
    unfold addImagesToPDF
    cases hs : supportedMime img.mimeType with
    | true =>
      cases hd : img.decodable with
      | true => simp [List.filterMap_cons, hs, hd, ih]
      | false => simp [List.filterMap_cons, hs, hd, ih]
    | false => simp [List.filterMap_cons, hs, ih]

/-! ## The fill dispatch versus the spec-side fillability predicate -/

lemma fillField_snd_eq_fieldFillable (d : DataRecord) (f : FormField) :
    (fillField d f).2 = fieldFillable d f := by
  unfold fillField fieldFillable
  cases hm : mapFieldNameToDataKey f.name with
  | none => rfl
  | some key =>
    clear hm
    cases hv : truthyGet d key with
    | none => simp [hv]
    | some v =>
      cases f with
      | textField n => simp [hv]
      | checkBox n => simp [hv]
      | radioGroup n opts => by_cases hc : v ∈ opts <;> simp [hv, hc]
      | other n => simp [hv]

/-! ## Cache invariants -/

lemma storeTempPDF_self (now : Nat) (k fn : String) (buf : List Nat) (s : CacheState) :
    ((storeTempPDF now k fn buf s).2) k
      = some { buffer := buf, contentType := "application/pdf",
               fileName := fn, createdAt := now } := by
  simp [storeTempPDF]

lemma stepCache_keeps (t0 : Nat) (k : String) (e0 : CacheEntry)
    (he : e0.createdAt = t0) (s : CacheState) (op : CacheOp)
    (hs : s k = some e0) (hop : opFreshWithin t0 k op = true) :
    (stepCache s op) k = some e0 := by
  cases op with
  | get _ => exact hs
  | put now key fn buf =>
    simp only [opFreshWithin, Bool.and_eq_true, decide_eq_true_eq, bne_iff_ne, ne_eq] at hop
    obtain ⟨hnow, hne⟩ := hop
    have hne2 : ¬ k = key := fun h2 => hne h2.symm
    have hcond : ¬ (e0.createdAt < now - ttlMs) := by
      rw [he]; omega
    simp [stepCache, storeTempPDF, cleanupTempStorage, hs, hcond, hne2]

lemma runCache_keeps (t0 : Nat) (k : String) (e0 : CacheEntry)
    (he : e0.createdAt = t0) :
    ∀ (ops : List CacheOp) (s : CacheState), s k = some e0 →
      (∀ op ∈ ops, opFreshWithin t0 k op = true) →
      (runCache s ops) k = some e0 := by
  intro ops
  induction ops with
  | nil => intro s hs _; exact hs
  | cons op rest ih =>
    intro s hs hops
    have h1 : (stepCache s op) k = some e0 :=
      stepCache_keeps t0 k e0 he s op hs (hops op (List.mem_cons_self op rest))
    exact ih (stepCache s op) h1 (fun o ho => hops o (List.mem_cons_of_mem op ho))

lemma stepCache_avoids_none (k : String) (s : CacheState) (op : CacheOp)
    (hs : s k = none) (hop : opAvoidsKey k op = true) :
    (stepCache s op) k = none := by
  cases op with
  | get _ => exact hs
  | put now key fn buf =>
    simp only [opAvoidsKey, bne_iff_ne, ne_eq] at hop
    have hne2 : ¬ k = key := fun h2 => hop h2.symm
    simp [stepCache, storeTempPDF, cleanupTempStorage, hs, hne2]

lemma runCache_avoids_none (k : String) :
    ∀ (ops : List CacheOp) (s : CacheState), s k = none →
      (∀ op ∈ ops, opAvoidsKey k op = true) →
      (runCache s ops) k = none := by
  intro ops
  induction ops with
  | nil => intro s hs _; exact hs
  | cons op rest ih =>
    intro s hs hops
    exact ih (stepCache s op)
      (stepCache_avoids_none k s op hs (hops op (List.mem_cons_self op rest)))
      (fun o ho => hops o (List.mem_cons_of_mem op ho))

lemma stepCache_avoids_inv (k : String) (e0 : CacheEntry) (s : CacheState) (op : CacheOp)
    (hs : s k = none ∨ s k = some e0) (hop : opAvoidsKey k op = true) :
    (stepCache s op) k = none ∨ (stepCache s op) k = some e0 := by
  cases op with
  | get _ => exact hs
  | put now key fn buf =>
    simp only [opAvoidsKey, bne_iff_ne, ne_eq] at hop
    have hne2 : ¬ k = key := fun h2 => hop h2.symm
    cases hs with
    | inl h => left; simp [stepCache, storeTempPDF, cleanupTempStorage, h, hne2]
    | inr h =>
      by_cases hc : e0.createdAt < now - ttlMs
      · left; simp [stepCache, storeTempPDF, cleanupTempStorage, h, hc, hne2]
      · right; simp [stepCache, storeTempPDF, cleanupTempStorage, h, hc, hne2]

lemma runCache_avoids_inv (k : String) (e0 : CacheEntry) :
    ∀ (ops : List CacheOp) (s : CacheState), (s k = none ∨ s k = some e0) →
      (∀ op ∈ ops, opAvoidsKey k op = true) →
      ((runCache s ops) k = none ∨ (runCache s ops) k = some e0) := by
  intro ops
  induction ops with
  | nil => intro s hs _; exact hs
  | cons op rest ih =>
    intro s hs hops
    exact ih (stepCache s op)
      (stepCache_avoids_inv k e0 s op hs (hops op (List.mem_cons_self op rest)))
      (fun o ho => hops o (List.mem_cons_of_mem op ho))

/-! ## Claim-level definitions -/

/-- Does `downloadPDFTemplate` yield no bytes for this outcome (the
condition selecting the synthetic fallback mode)? -/
def repoYieldsNoBytes : RepoOutcome → Bool
  | .notFound => true
  | .downloadError => true
  | .found _ => false
  | .searchError => false

/-- A repository on which every search fails with an I/O error. -/
def repoAllSearchError : String → RepoOutcome := fun _ => RepoOutcome.searchError

/-- A repository with no templates at all. -/
def repoAllNotFound : String → RepoOutcome := fun _ => RepoOutcome.notFound

/-- An image declared `image/jpeg` whose bytes `embedJpg` rejects. -/
def cexBadJpeg : UploadedImage :=
  { documentType := "drivers-license", mimeType := "image/jpeg", decodable := false }

/-- An image with an unsupported declared media type. -/
def cexGif : UploadedImage :=
  { documentType := "spot-registration", mimeType := "image/gif", decodable := true }

/-- Spec-side predicate of claim C6: every field considered by the fill
had a mapped, present value of a compatible kind (real-template mode:
every enumerated form field; fallback mode: every entry of the template
category's field-mapping table has a present value; the error outcomes
return no counters and the predicate is vacuous there). -/
def allFieldsFillable (repo : RepoOutcome) (template : String) (d : DataRecord) : Bool :=
  match repo with
  | .found (.valid fields _) => fields.all (fun f => fieldFillable d f)
  | .found .corrupt => true
  | .searchError => true
  | .notFound => (getFieldMappings template).all (fun p => (truthyGet d p.2).isSome)
  | .downloadError => (getFieldMappings template).all (fun p => (truthyGet d p.2).isSome)

/-! ## Claim C1 -/

/-- Claim C1 counterexample: on a repository outcome that is a
network/storage download error (not a not-found), `fillPDFTemplate`
does not fail; it succeeds and produces a synthetic fallback document,
because `downloadPDFTemplate` catches the download error and returns
null. -/
theorem C1_cex :
    exOk (fillPDFTemplate RepoOutcome.downloadError "we-owe" [] [] "01/01/25" "20250101") = true
    ∧ resultIsFallback (fillPDFTemplate RepoOutcome.downloadError "we-owe" [] []
        "01/01/25" "20250101") = true := by
  constructor <;> decide

/-- Claim C1 (amended): synthetic fallback rendering is used exactly
when `downloadPDFTemplate` returns no bytes, which happens both when the
repository reports not-found and when the download itself fails with an
I/O error (that error is caught and converted to null); only an error in
the search/existence phase propagates as a fill failure, and the
Assembler's documents-included manifest lists exactly the titles of the
templates whose fill succeeded, omitting the failed ones. -/
theorem C1_amended_thm :
    (∀ (repo : RepoOutcome) (template : String) (d : DataRecord)
       (conf : List (String × String)) (today ds : String),
       resultIsFallback (fillPDFTemplate repo template d conf today ds)
         = repoYieldsNoBytes repo)
    ∧ (∀ (template : String) (d : DataRecord) (conf : List (String × String))
        (today ds : String),
       exOk (fillPDFTemplate RepoOutcome.searchError template d conf today ds) = false)
    ∧ (∀ (repo : String → RepoOutcome) (ts : List String) (d : DataRecord)
        (conf : List (String × String)) (imgs : List UploadedImage) (today ds ds2 : String),
       documentsIncludedOf (createCombinedPDF repo ts d conf imgs today ds ds2)
         = (ts.filter (fun t =>
             exOk (fillPDFTemplate (repo t) t (enhance d today) conf today ds))).map
               getTemplateTitle) := by
  refine ⟨?_, ?_, ?_⟩
  · intro repo template d conf today ds
    cases repo with
    | found b => cases b <;> rfl
    | notFound => rfl
    | downloadError => rfl
    | searchError => rfl
  · intro template d conf today ds
    rfl
  · intro repo ts d conf imgs today ds ds2
    simp [createCombinedPDF, documentsIncludedOf, processTemplates_docs]

/-! ## Claim C2 -/

/-- Claim C2 counterexample: when every template fails (search-phase
repository errors) and the single image is skipped as unsupported, so
zero content is produced, `createCombinedPDF` still returns an artifact
(with zero pages and an empty documents manifest) instead of surfacing
an assembly failure. -/
theorem C2_cex :
    exOk (createCombinedPDF repoAllSearchError ["we-owe"] [] [] [cexGif]
        "01/01/25" "20250101" "2025-01-01") = true
    ∧ combinedPages (createCombinedPDF repoAllSearchError ["we-owe"] [] [] [cexGif]
        "01/01/25" "20250101" "2025-01-01") = 0
    ∧ documentsIncludedOf (createCombinedPDF repoAllSearchError ["we-owe"] [] [] [cexGif]
        "01/01/25" "20250101" "2025-01-01") = [] := by
  refine ⟨by decide, by decide, by decide⟩

/-- Claim C2 (amended): `createCombinedPDF` always returns a best-effort
combined artifact; every per-template and per-image failure is absorbed,
and even when zero content could be produced it returns an artifact
(with zero pages) rather than surfacing a hard assembly failure. -/
theorem C2_amended_thm :
    ∀ (repo : String → RepoOutcome) (ts : List String) (d : DataRecord)
      (conf : List (String × String)) (imgs : List UploadedImage) (today ds ds2 : String),
      exOk (createCombinedPDF repo ts d conf imgs today ds ds2) = true := by
  intro repo ts d conf imgs today ds ds2
  rfl

/-! ## Claim C3 -/

/-- Claim C3 counterexample: an image whose declared media type is the
supported `image/jpeg` but whose bytes the embedder rejects fails to
become a page of the combined artifact and is dropped with no record in
the images-included manifest. -/
theorem C3_cex :
    addImagesToPDF [cexBadJpeg] = (0, [])
    ∧ combinedPages (createCombinedPDF repoAllNotFound [] [] [] [cexBadJpeg]
        "01/01/25" "20250101" "2025-01-01") = 0
    ∧ imagesIncludedOf (createCombinedPDF repoAllNotFound [] [] [] [cexBadJpeg]
        "01/01/25" "20250101" "2025-01-01") = [] := by
  refine ⟨by decide, by decide, by decide⟩

/-- Claim C3 (amended): the images-included manifest records exactly,
in order, the display title of each supported image that embeds
successfully and the annotated "unsupported format" label of each image
with an unsupported media type; an image of supported type whose bytes
fail to embed is skipped without a manifest record. -/
theorem C3_amended_thm :
    ∀ (repo : String → RepoOutcome) (ts : List String) (d : DataRecord)
      (conf : List (String × String)) (imgs : List UploadedImage) (today ds ds2 : String),
      imagesIncludedOf (createCombinedPDF repo ts d conf imgs today ds ds2)
        = imgs.filterMap (fun i =>
            if supportedMime i.mimeType then
              (if i.decodable then some (formatDocumentTypeTitle i.documentType) else none)
            else some (unsupportedLabel i)) := by
  intro repo ts d conf imgs today ds ds2
  simp [createCombinedPDF, imagesIncludedOf, addImagesToPDF_labels]

/-! ## Claim C4 -/

/-- Claim C4 counterexample: the form-field name `DriversLicenseNumber`
has no entry in the alias table (its normalized form
`driverslicensenumber` is absent), so filling a real template containing
a text field of that name with `licenseNumber = "D1234567"` leaves the
field untouched and `fieldsProcessed` stays `0`, not `1`. -/
theorem C4_cex :
    mapFieldNameToDataKey "DriversLicenseNumber" = none
    ∧ fieldsProcessedOf (fillPDFTemplate
        (RepoOutcome.found (TemplateBytes.valid [FormField.textField "DriversLicenseNumber"] 1))
        "bill-of-sale" [("licenseNumber", "D1234567")] [] "01/01/25" "20250101") = 0
    ∧ realStatesOf (fillPDFTemplate
        (RepoOutcome.found (TemplateBytes.valid [FormField.textField "DriversLicenseNumber"] 1))
        "bill-of-sale" [("licenseNumber", "D1234567")] [] "01/01/25" "20250101")
      = [(FormField.textField "DriversLicenseNumber", FieldOutcome.untouched)] := by
  refine ⟨by decide, by decide, by decide⟩

/-- Claim C4 (amended): the alias-table keys that actually map to
`licenseNumber` are `drivinglicensenumber` and `dllicense` — the
table's mixed-case `licenseNumber` entry is unreachable, because the
normalizer only ever emits lower-case letters and digits — so filling a
real template with a text field named `DrivingLicenseNumber` and
`licenseNumber = "D1234567"` writes the value `D1234567` into the field
and increments `fieldsProcessed` by 1, while a field named
`DriversLicenseNumber` is left untouched (see the counterexample). -/
theorem C4_amended_thm :
    (∀ s : String, (normalizeFieldName s == "licenseNumber") = false)
    ∧ mapFieldNameToDataKey "DrivingLicenseNumber" = some "licenseNumber"
    ∧ fieldsProcessedOf (fillPDFTemplate
        (RepoOutcome.found (TemplateBytes.valid [FormField.textField "DrivingLicenseNumber"] 1))
        "bill-of-sale" [("licenseNumber", "D1234567")] [] "01/01/25" "20250101") = 1
    ∧ realStatesOf (fillPDFTemplate
        (RepoOutcome.found (TemplateBytes.valid [FormField.textField "DrivingLicenseNumber"] 1))
        "bill-of-sale" [("licenseNumber", "D1234567")] [] "01/01/25" "20250101")
      = [(FormField.textField "DrivingLicenseNumber", FieldOutcome.setText "D1234567")] := by
  refine ⟨?_, by decide, by decide, by decide⟩
  intro s
  cases h : normalizeFieldName s == "licenseNumber" with
  | false => rfl
  | true =>
    exfalso
    have he : normalizeFieldName s = "licenseNumber" := eq_of_beq h
    have hN : 'N' ∈ (normalizeFieldName s).data := by rw [he]; decide
    have hN2 : 'N' ∈ ((strToLower s).data).filter (fun c => charIsLower c || charIsDigit c) := hN
    have hp := (List.mem_filter.mp hN2).2
    exact absurd hp (by decide)

/-! ## Claim C5 -/

/-- Claim C5 counterexample: with no templates and one image whose
declared media type is supported but whose bytes fail to embed, the
combined artifact has `0` pages while the claimed formula (pages of
successful templates plus count of supported-type images) gives `1`. -/
theorem C5_cex :
    combinedPages (createCombinedPDF repoAllNotFound [] [] [] [cexBadJpeg]
        "01/01/25" "20250101" "2025-01-01") = 0
    ∧ [cexBadJpeg].countP (fun i => supportedMime i.mimeType) = 1
    ∧ (combinedPages (createCombinedPDF repoAllNotFound [] [] [] [cexBadJpeg]
          "01/01/25" "20250101" "2025-01-01")
        != [cexBadJpeg].countP (fun i => supportedMime i.mimeType)) = true := by
  refine ⟨by decide, by decide, by decide⟩

/-- Claim C5 (amended): the page count of the combined artifact equals
the sum of the page counts of each successfully filled template document
plus the number of images whose declared media type is supported and
whose bytes embed successfully. -/
theorem C5_amended_thm :
    ∀ (repo : String → RepoOutcome) (ts : List String) (d : DataRecord)
      (conf : List (String × String)) (imgs : List UploadedImage) (today ds ds2 : String),
      combinedPages (createCombinedPDF repo ts d conf imgs today ds ds2)
        = (ts.map (fun t =>
             fillPages (fillPDFTemplate (repo t) t (enhance d today) conf today ds))).sum
          + imgs.countP (fun i => supportedMime i.mimeType && i.decodable) := by
  intro repo ts d conf imgs today ds ds2
  simp [createCombinedPDF, combinedPages, processTemplates_pages, addImagesToPDF_pages]

/-! ## Claim C6 -/

/-- Claim C6: for every fill invocation that returns, in both
real-template and fallback mode, `fieldsProcessed ≤ fieldsTotal`, and
equality holds if and only if every field had a mapped, present value of
a compatible kind (`allFieldsFillable`). -/
theorem C6_thm (repo : RepoOutcome) (template : String) (d : DataRecord)
    (conf : List (String × String)) (today ds : String)
    (h : exOk (fillPDFTemplate repo template d conf today ds) = true) :
    fieldsProcessedOf (fillPDFTemplate repo template d conf today ds)
      ≤ fieldsTotalOf (fillPDFTemplate repo template d conf today ds)
    ∧ (fieldsProcessedOf (fillPDFTemplate repo template d conf today ds)
        = fieldsTotalOf (fillPDFTemplate repo template d conf today ds)
      ↔ allFieldsFillable repo template (enhance d today) = true) := by
  cases repo with
  | found b =>
    cases b with
    | valid fields pages =>
      constructor
      · simpa [fillPDFTemplate, downloadPDFTemplate, fieldsProcessedOf, fieldsTotalOf]
          using List.countP_le_length
            (fun f => (fillField (enhance d today) f).2) (l := fields)
      · simp only [fillPDFTemplate, downloadPDFTemplate, fieldsProcessedOf, fieldsTotalOf,
          allFieldsFillable, fillField_snd_eq_fieldFillable]
        rw [List.countP_eq_length, List.all_eq_true]
    | corrupt =>
      simp [fillPDFTemplate, downloadPDFTemplate, exOk] at h
  | notFound =>
    constructor
    · simpa [fillPDFTemplate, downloadPDFTemplate, fieldsProcessedOf, fieldsTotalOf]
        using List.countP_le_length
          (fun p : String × String => (truthyGet (enhance d today) p.2).isSome)
          (l := getFieldMappings template)
    · simp only [fillPDFTemplate, downloadPDFTemplate, fieldsProcessedOf, fieldsTotalOf,
        allFieldsFillable]
      rw [List.countP_eq_length, List.all_eq_true]
  | downloadError =>
    constructor
    · simpa [fillPDFTemplate, downloadPDFTemplate, fieldsProcessedOf, fieldsTotalOf]
        using List.countP_le_length
          (fun p : String × String => (truthyGet (enhance d today) p.2).isSome)
          (l := getFieldMappings template)
    · simp only [fillPDFTemplate, downloadPDFTemplate, fieldsProcessedOf, fieldsTotalOf,
        allFieldsFillable]
      rw [List.countP_eq_length, List.all_eq_true]
  | searchError =>
    simp [fillPDFTemplate, downloadPDFTemplate, exOk] at h

/-- Witness for claim C6: a concrete fallback fill (template `we-owe`,
only `firstName` provided) satisfies the bound and the equality
criterion. -/
theorem C6_witness :
    fieldsProcessedOf (fillPDFTemplate RepoOutcome.notFound "we-owe"
        [("firstName", "John")] [] "01/01/25" "20250101")
      ≤ fieldsTotalOf (fillPDFTemplate RepoOutcome.notFound "we-owe"
        [("firstName", "John")] [] "01/01/25" "20250101")
    ∧ (fieldsProcessedOf (fillPDFTemplate RepoOutcome.notFound "we-owe"
        [("firstName", "John")] [] "01/01/25" "20250101")
        = fieldsTotalOf (fillPDFTemplate RepoOutcome.notFound "we-owe"
            [("firstName", "John")] [] "01/01/25" "20250101")
      ↔ allFieldsFillable RepoOutcome.notFound "we-owe"
          (enhance [("firstName", "John")] "01/01/25") = true) :=
  C6_thm RepoOutcome.notFound "we-owe" [("firstName", "John")] [] "01/01/25" "20250101"
    (by decide)

/-! ## Claim C7 -/

lemma lookup_map_self {α β : Type} [DecidableEq α] (f : α → β) :
    ∀ (l : List α) (a : α), a ∈ l → (l.map (fun x => (x, f x))).lookup a = some (f a) := by
  intro l
  induction l with
  | nil => intro a ha; cases ha
  | cons x rest ih =>
    intro a ha
    by_cases hx : a = x
    · subst hx
      simp [List.lookup]
    · have hb : (a == x) = false := by simp [hx]
      have ha2 : a ∈ rest := by
        cases (List.mem_cons.mp ha) with
        | inl h => exact absurd h hx
        | inr h => exact h
      simp [List.map_cons, List.lookup, hb, ih a ha2]

/-- Claim C7: when filling a real template, every checkbox form field
whose mapped canonical key has a present value `v` ends up, in the
produced document, checked exactly when the lower-cased value is one of
`true`, `yes`, `1`, `checked`, `x`, and unchecked otherwise; in either
case the field counts toward `fieldsProcessed`. -/
theorem C7_thm (fields : List FormField) (pg : Nat) (template : String) (d : DataRecord)
    (conf : List (String × String)) (today ds : String) (nm k v : String)
    (hf : FormField.checkBox nm ∈ fields)
    (hk : mapFieldNameToDataKey nm = some k)
    (hv : truthyGet (enhance d today) k = some v) :
    (realStatesOf (fillPDFTemplate (RepoOutcome.found (TemplateBytes.valid fields pg))
        template d conf today ds)).lookup (FormField.checkBox nm)
      = some (if truthyValues.contains (strToLower v) then FieldOutcome.checked
              else FieldOutcome.unchecked)
    ∧ (fillField (enhance d today) (FormField.checkBox nm)).2 = true := by
  have hcalc : fillField (enhance d today) (FormField.checkBox nm)
      = (if truthyValues.contains (strToLower v) then FieldOutcome.checked
         else FieldOutcome.unchecked, true) := by
    unfold fillField
    simp [FormField.name, hk, hv]
  constructor
  · have hm : realStatesOf (fillPDFTemplate (RepoOutcome.found (TemplateBytes.valid fields pg))
        template d conf today ds)
        = fields.map (fun f => (f, (fillField (enhance d today) f).1)) := by
      simp [fillPDFTemplate, downloadPDFTemplate, realStatesOf]
    rw [hm]
    rw [lookup_map_self (fun f => (fillField (enhance d today) f).1) fields
      (FormField.checkBox nm) hf]
    rw [hcalc]
  · rw [hcalc]

/-- Witness for claim C7: a checkbox named `Insurance` (mapped to
`insuranceCompany`) with value `x` ends up checked and counted. -/
theorem C7_witness :
    (realStatesOf (fillPDFTemplate
        (RepoOutcome.found (TemplateBytes.valid [FormField.checkBox "Insurance"] 1))
        "we-owe" [("insuranceCompany", "x")] [] "01/01/25" "20250101")).lookup
        (FormField.checkBox "Insurance")
      = some (if truthyValues.contains (strToLower "x") then FieldOutcome.checked
              else FieldOutcome.unchecked)
    ∧ (fillField (enhance [("insuranceCompany", "x")] "01/01/25")
        (FormField.checkBox "Insurance")).2 = true :=
  C7_thm [FormField.checkBox "Insurance"] 1 "we-owe" [("insuranceCompany", "x")] []
    "01/01/25" "20250101" "Insurance" "insuranceCompany" "x"
    (by decide) (by decide) (by decide)

/-! ## Claim C8 -/

/-- Claim C8: after a `put` stores an entry under key `k`, any sequence
of operations whose puts all happen within the TTL window (and use
fresh keys) leaves the entry intact: every `get` of `k` returns the
byte-identical payload with its content type and filename, arbitrarily
many times; moreover a `get` never mutates the cache state. -/
theorem C8_thm (s : CacheState) (t0 : Nat) (k fn : String) (buf : List Nat)
    (ops : List CacheOp)
    (hops : ∀ op ∈ ops, opFreshWithin t0 k op = true) :
    getTempPDF (runCache ((storeTempPDF t0 k fn buf s).2) ops) k
      = some (buf, "application/pdf", fn)
    ∧ (∀ (s2 : CacheState) (k2 : String), stepCache s2 (CacheOp.get k2) = s2) := by
  constructor
  · have h0 := storeTempPDF_self t0 k fn buf s
    have h1 := runCache_keeps t0 k
      { buffer := buf, contentType := "application/pdf", fileName := fn, createdAt := t0 }
      rfl ops ((storeTempPDF t0 k fn buf s).2) h0 hops
    simp [getTempPDF, h1]
  · intro s2 k2
    rfl

/-- Witness for claim C8: store under `k1` at time 1000, interleave a
get, a fresh put within the TTL, and another get; the entry is returned
unchanged, and a get is the identity on a concrete state. -/
theorem C8_witness :
    getTempPDF (runCache ((storeTempPDF 1000 "k1" "a.pdf" [1, 2] emptyCache).2)
        [CacheOp.get "k1", CacheOp.put 2000 "k2" "b.pdf" [9], CacheOp.get "k1"]) "k1"
      = some ([1, 2], "application/pdf", "a.pdf")
    ∧ stepCache emptyCache (CacheOp.get "k0") = emptyCache := by
  have h := C8_thm emptyCache 1000 "k1" "a.pdf" [1, 2]
    [CacheOp.get "k1", CacheOp.put 2000 "k2" "b.pdf" [9], CacheOp.get "k1"] (by decide)
  exact ⟨h.1, h.2 emptyCache "k0"⟩

lemma stepCache_expired (k : String) (e0 : CacheEntry) (s : CacheState)
    (now : Nat) (key fn : String) (buf : List Nat)
    (hs : s k = none ∨ s k = some e0)
    (hc : e0.createdAt + ttlMs < now)
    (hne : ¬ k = key) :
    (stepCache s (CacheOp.put now key fn buf)) k = none := by
  cases hs with
  | inl h => simp [stepCache, storeTempPDF, cleanupTempStorage, h, hne]
  | inr h =>
    have hlt : e0.createdAt < now - ttlMs := by omega
    simp [stepCache, storeTempPDF, cleanupTempStorage, h, hne, hlt]

/-! ## Claim C9 -/

/-- Claim C9: once strictly more than the one-hour TTL has elapsed since
an entry's creation and a subsequent `put` has occurred (whose sweep
removes every entry older than the TTL), `getTempPDF` on that key
returns not-found (and no exception), regardless of the other operations
around it, provided no later put reuses the key. -/
theorem C9_thm (s : CacheState) (t0 : Nat) (k fn : String) (buf : List Nat)
    (pre post : List CacheOp) (bigNow : Nat) (bigKey bigFn : String) (bigBuf : List Nat)
    (hpre : ∀ op ∈ pre, opAvoidsKey k op = true)
    (hpost : ∀ op ∈ post, opAvoidsKey k op = true)
    (htime : t0 + ttlMs < bigNow)
    (hkey : ¬ bigKey = k) :
    getTempPDF (runCache ((storeTempPDF t0 k fn buf s).2)
        (pre ++ CacheOp.put bigNow bigKey bigFn bigBuf :: post)) k = none := by
  have h0 := storeTempPDF_self t0 k fn buf s
  have hinv1 := runCache_avoids_inv k
    { buffer := buf, contentType := "application/pdf", fileName := fn, createdAt := t0 }
    pre ((storeTempPDF t0 k fn buf s).2) (Or.inr h0) hpre
  have hne2 : ¬ k = bigKey := fun h2 => hkey h2.symm
  have hbig := stepCache_expired k
    { buffer := buf, contentType := "application/pdf", fileName := fn, createdAt := t0 }
    (runCache ((storeTempPDF t0 k fn buf s).2) pre) bigNow bigKey bigFn bigBuf
    hinv1 htime hne2
  have hrun : runCache ((storeTempPDF t0 k fn buf s).2)
      (pre ++ CacheOp.put bigNow bigKey bigFn bigBuf :: post)
      = runCache (stepCache (runCache ((storeTempPDF t0 k fn buf s).2) pre)
          (CacheOp.put bigNow bigKey bigFn bigBuf)) post := by
    simp [runCache, List.foldl_append]
  rw [hrun]
  have hnone := runCache_avoids_none k post _ hbig hpost
  simp [getTempPDF, hnone]

/-- Witness for claim C9: an entry stored at time 0 is gone after a put
at time 3600001 (one hour plus one millisecond later) under a different
key; a subsequent get of the original key returns not-found. -/
theorem C9_witness :
    getTempPDF (runCache ((storeTempPDF 0 "k1" "a.pdf" [7] emptyCache).2)
        ([] ++ CacheOp.put 3600001 "k2" "b.pdf" [8] :: [CacheOp.get "k1"])) "k1" = none :=
  C9_thm emptyCache 0 "k1" "a.pdf" [7] [] [CacheOp.get "k1"] 3600001 "k2" "b.pdf" [8]
    (by decide) (by decide) (by decide) (by decide)

/-! ## Claim C10 -/

/-- Claim C10: a canonical key bound to the empty string is treated
exactly like an absent key in both modes: the whole fill result is
unchanged when the empty binding is removed, a text field whose mapped
key is bound to the empty string is left untouched and not counted as
processed, and the fallback rendering draws the `[NOT PROVIDED]` line
for it. -/
theorem C10_thm :
    (∀ (repo : RepoOutcome) (template : String) (conf : List (String × String))
       (today ds : String) (d : DataRecord) (k : String),
       fillPDFTemplate repo template (setKey d k "") conf today ds
         = fillPDFTemplate repo template (removeKey d k) conf today ds)
    ∧ (∀ (d : DataRecord) (nm key : String),
        mapFieldNameToDataKey nm = some key → getVal d key = some "" →
        fillField d (FormField.textField nm) = (FieldOutcome.untouched, false))
    ∧ (∀ (d : DataRecord) (conf : List (String × String)) (label key : String),
        getVal d key = some "" →
        fallbackLine d conf label key = label ++ ": [NOT PROVIDED]") := by
  refine ⟨?_, ?_, ?_⟩
  · intro repo template conf today ds d k
    exact fillPDFTemplate_congr (truthyGet_set_empty d k) repo template conf today ds
  · intro d nm key hk hv
    unfold fillField
    simp [FormField.name, hk, truthyGet, hv]
  · intro d conf label key hv
    unfold fallbackLine
    simp [truthyGet, hv]

/-- Witness for claim C10: concrete instances of all three parts (empty
`firstName` equals removed `firstName`; a text field mapped to a key
bound to the empty string stays untouched; the fallback line reads
`[NOT PROVIDED]`). -/
theorem C10_witness :
    fillPDFTemplate RepoOutcome.notFound "we-owe" (setKey [("a", "b")] "firstName" "") []
        "01/01/25" "20250101"
      = fillPDFTemplate RepoOutcome.notFound "we-owe" (removeKey [("a", "b")] "firstName") []
        "01/01/25" "20250101"
    ∧ fillField [("licenseNumber", "")] (FormField.textField "DLLicense")
        = (FieldOutcome.untouched, false)
    ∧ fallbackLine [("insuranceCompany", "")] [] "Insurance Company" "insuranceCompany"
        = "Insurance Company: [NOT PROVIDED]" :=
  ⟨C10_thm.1 RepoOutcome.notFound "we-owe" [] "01/01/25" "20250101" [("a", "b")] "firstName",
   C10_thm.2.1 [("licenseNumber", "")] "DLLicense" "licenseNumber" (by decide) (by decide),
   C10_thm.2.2 [("insuranceCompany", "")] [] "Insurance Company" "insuranceCompany" (by decide)⟩
